import Mathlib

set_option maxRecDepth 8192
set_option maxHeartbeats 1600000

/-!
Shallow embedding of the HDL parser of the hdl-js repository
(src/parser/generated/hdl-parser.js): the hand-rolled regexp tokenizer and
the LR(1) engine with its generated `table`, `productions` and semantic
actions, including the module-level `inputs` / `outputs` / `parts`
accumulators that the grammar action hooks mutate.

JS strings are embedded as `List Char` / `String` (all inputs of interest
are ASCII, so JS code-unit offsets coincide with character offsets);
thrown `SyntaxError`s become the `PError` error type of an `Except`
computation; the module-level mutable accumulators become an explicit
`Env` value threaded in and out of `parse`.
-/

namespace HdlJs

/-- Token types of the generated parser; the encoded `tokens` map assigns
each the table column recorded by `TokType.col`. -/
inductive TokType
  | tCHIP | tIN | tOUT | tPARTS | tID
  | tLBrace | tRBrace | tSemi | tColon | tComma | tLParen | tRParen | tEq
  | tEOF
  deriving DecidableEq, Repr

/-- The `tokens` map of the generated parser: token type to table column. -/
def TokType.col : TokType → Nat
  | .tCHIP => 12
  | .tIN => 13
  | .tOUT => 14
  | .tPARTS => 15
  | .tID => 16
  | .tLBrace => 17
  | .tRBrace => 18
  | .tSemi => 19
  | .tColon => 20
  | .tComma => 21
  | .tLParen => 22
  | .tRParen => 23
  | .tEq => 24
  | .tEOF => 25

/-- Location data captured by the tokenizer for each matched token
(`startOffset` .. `endColumn` fields of `_toToken`). -/
structure Loc where
  startOffset : Nat
  endOffset : Nat
  startLine : Nat
  endLine : Nat
  startColumn : Nat
  endColumn : Nat
  deriving DecidableEq, Repr

/-- A token as produced by `tokenizer._toToken` (type, matched text and
location). The constant `EOF_TOKEN` of the source has no location fields;
its `loc` is all zeros here and is never inspected by the engine. -/
structure Token where
  type : TokType
  value : String
  loc : Loc
  deriving DecidableEq, Repr

def EOF_TOKEN : Token := ⟨.tEOF, "", ⟨0, 0, 0, 0, 0, 0⟩⟩

/-- Tokenizer state: the input string plus the cursor / line / column /
line-begin-offset fields set by `initString` and `_captureLocation`. -/
structure LexState where
  str : List Char
  cursor : Nat
  currentLine : Nat
  currentColumn : Nat
  currentLineBeginOffset : Nat
  deriving DecidableEq, Repr

/-- `tokenizer.initString`. -/
def initString (s : List Char) : LexState := ⟨s, 0, 1, 0, 0⟩

/-- JS regexp `.`: any character except a line terminator. -/
def jsDot (c : Char) : Bool := !(c == '\n' || c == '\r')

/-- JS regexp `\s` restricted to the ASCII range (the only characters that
occur in the repository's HDL sources). -/
def jsSpace (c : Char) : Bool :=
  c == ' ' || c == '\t' || c == '\n' || c == '\r' || c == '\x0b' || c == '\x0c'

/-- JS regexp `\w`: `[A-Za-z0-9_]`. -/
def wordChar (c : Char) : Bool := c.isAlpha || c.isDigit || c == '_'

/-- Lex rule 0, `/^\/\/.*/`: a line comment. -/
def matchLineComment : List Char → Option (List Char)
  | '/' :: '/' :: rest => some ('/' :: '/' :: rest.takeWhile jsDot)
  | _ => none

/-- Everything up to and including the first `*/`, if any: the non-greedy
body of lex rule 1. -/
def blockBody : List Char → Option (List Char)
  | '*' :: '/' :: _ => some ['*', '/']
  | c :: rest => (blockBody rest).map (fun b => c :: b)
  | [] => none

/-- Lex rule 1, `/^\/\*(.|\s)*?\*\//`: a block comment. -/
def matchBlockComment : List Char → Option (List Char)
  | '/' :: '*' :: rest => (blockBody rest).map (fun b => '/' :: '*' :: b)
  | _ => none

/-- Lex rule 2, `/^\s+/`. -/
def matchSpaces (s : List Char) : Option (List Char) :=
  let m := s.takeWhile jsSpace
  if m.isEmpty then none else some m

/-- A literal lex rule such as `/^CHIP/` or `/^\{/`. -/
def matchLit (lit : List Char) (s : List Char) : Option (List Char) :=
  if lit.isPrefixOf s then some lit else none

/-- Lex rule 7, `/^\w+/`. -/
def matchWord (s : List Char) : Option (List Char) :=
  let m := s.takeWhile wordChar
  if m.isEmpty then none else some m

/-- The `lexRules` of the source, tried in order with the first match
winning, exactly as the loop in `getNextToken` does. `none` in the second
component marks a skipped match (comments and whitespace). -/
def nextMatch (s : List Char) : Option (List Char × Option TokType) :=
  ((matchLineComment s).map (fun m => (m, (none : Option TokType)))) <|>
  ((matchBlockComment s).map (fun m => (m, (none : Option TokType)))) <|>
  ((matchSpaces s).map (fun m => (m, (none : Option TokType)))) <|>
  ((matchLit "CHIP".data s).map (fun m => (m, some TokType.tCHIP))) <|>
  ((matchLit "IN".data s).map (fun m => (m, some TokType.tIN))) <|>
  ((matchLit "OUT".data s).map (fun m => (m, some TokType.tOUT))) <|>
  ((matchLit "PARTS".data s).map (fun m => (m, some TokType.tPARTS))) <|>
  ((matchWord s).map (fun m => (m, some TokType.tID))) <|>
  ((matchLit ['\x7b'] s).map (fun m => (m, some TokType.tLBrace))) <|>
  ((matchLit ['\x7d'] s).map (fun m => (m, some TokType.tRBrace))) <|>
  ((matchLit [';'] s).map (fun m => (m, some TokType.tSemi))) <|>
  ((matchLit [':'] s).map (fun m => (m, some TokType.tColon))) <|>
  ((matchLit [','] s).map (fun m => (m, some TokType.tComma))) <|>
  ((matchLit ['('] s).map (fun m => (m, some TokType.tLParen))) <|>
  ((matchLit [')'] s).map (fun m => (m, some TokType.tRParen))) <|>
  ((matchLit ['='] s).map (fun m => (m, some TokType.tEq)))

/-- Index of the last newline of a matched text, if any (the last
iteration of the `nlRe` loop in `_captureLocation`). -/
def lastNlPos : List Char → Option Nat
  | [] => none
  | c :: rest =>
    match lastNlPos rest with
    | some i => some (i + 1)
    | none => if c == '\n' then some 0 else none

/-- `tokenizer._captureLocation` followed by the `this._cursor +=` update
of `_match`: returns the location of the matched text and the advanced
tokenizer state. -/
def captureLocation (st : LexState) (m : List Char) : Loc × LexState :=
  let startOffset := st.cursor
  let startLine := st.currentLine
  let startColumn := startOffset - st.currentLineBeginOffset
  let newLine := st.currentLine + m.count '\n'
  let newLineBegin :=
    match lastNlPos m with
    | some i => startOffset + i + 1
    | none => st.currentLineBeginOffset
  let endOffset := startOffset + m.length
  let endColumn := endOffset - newLineBegin
  (⟨startOffset, endOffset, startLine, newLine, startColumn, endColumn⟩,
   { st with
      cursor := endOffset
      currentLine := newLine
      currentColumn := endColumn
      currentLineBeginOffset := newLineBegin })

/-- JS `String.prototype.split('\n')`. -/
def splitNl : List Char → List (List Char)
  | [] => [[]]
  | c :: rest =>
    let r := splitNl rest
    if c == '\n' then [] :: r
    else
      match r with
      | h :: t => (c :: h) :: t
      | [] => [[c]]

/-- The errors the parser module can signal. `unexpectedToken` models the
`SyntaxError` built by `tokenizer.throwUnexpectedToken` (used both for an
unlexable character and for a token the LR table rejects);
`unexpectedEndOfInput` models the bare `SyntaxError('Unexpected end of
input.')`. `fuelOut` and `engineCrash` are artifacts of the embedding:
the first stands for a non-terminating run (the source's loops always
terminate, and no theorem below ever meets it), the second for a JS
`TypeError` on a hole in the generated table (unreachable likewise). -/
inductive PError
  | unexpectedToken (symbol : String) (line : Nat) (column : Nat)
      (lineSource : Option String)
  | unexpectedEndOfInput
  | fuelOut
  | engineCrash
  deriving DecidableEq, Repr

/-- `tokenizer.throwUnexpectedToken(symbol, line, column)`: the source
line is `string.split('\n')[line - 1]`. -/
def throwUnexpectedToken (input : List Char) (symbol : String)
    (line column : Nat) : PError :=
  .unexpectedToken symbol line column
    (((splitNl input).map String.mk)[line - 1]?)

/-- The message of the thrown `SyntaxError`, rebuilt exactly as the source
formats it: for `throwUnexpectedToken`, the offending line and a caret
padded to the column (omitted when the line is missing or empty, which is
falsy in JS), then `Unexpected token: "<symbol>" at <line>:<column>.`. -/
def errMessage : PError → Option String
  | .unexpectedToken symbol line column lineSource =>
    let lineData :=
      match lineSource with
      | some ls =>
        if ls = "" then ""
        else "\n\n" ++ ls ++ "\n" ++ String.mk (List.replicate column ' ') ++ "^\n"
      | none => ""
    some (lineData ++ "Unexpected token: \"" ++ symbol ++ "\" at " ++
      toString line ++ ":" ++ toString column ++ ".")
  | .unexpectedEndOfInput => some "Unexpected end of input."
  | _ => none

/-- `tokenizer.getNextToken`, fueled for the self-call after a skipped
match (each skipped match consumes at least one character, so fuel
`length + 2` always suffices). Returns the token and the advanced state.

The source's `string === '' && matched === ''` branch is dropped: none of
the lex rules can match the empty string. -/
def getNextToken : Nat → LexState → Except PError (Token × LexState)
  | 0, _ => .error .fuelOut
  | fuel + 1, st =>
    -- `if (!this.hasMoreTokens()) return EOF_TOKEN;`
    if st.str.length < st.cursor then .ok (EOF_TOKEN, st)
    else
      let s := st.str.drop st.cursor
      match nextMatch s with
      | some (m, act) =>
        let (loc, st1) := captureLocation st m
        match act with
        | none => getNextToken fuel st1
        | some tt => .ok (⟨tt, String.mk m, loc⟩, st1)
      | none =>
        -- `if (this.isEOF()) { this._cursor++; return EOF_TOKEN; }`
        if st.str.length = st.cursor then
          .ok (EOF_TOKEN, { st with cursor := st.cursor + 1 })
        else
          .error (throwUnexpectedToken st.str
            (String.mk (s.take 1)) st.currentLine st.currentColumn)

/-- Drains the tokenizer: the whole token stream of an input, ending with
the EOF token (or the lexer error that interrupts it). -/
def tokenList : Nat → LexState → Except PError (List Token)
  | 0, _ => .error .fuelOut
  | fuel + 1, st => do
    let (t, st1) ← getNextToken (st.str.length + 2) st
    if t.type = .tEOF then .ok [t]
    else do
      let rest ← tokenList fuel st1
      .ok (t :: rest)

def tokenizeAll (s : String) : Except PError (List Token) :=
  tokenList (s.data.length + 2) (initString s.data)

/-! ## AST

The objects built by the semantic actions: `Chip`, `ChipCall` and
`Argument` (their JS `type` tags are carried by the Lean types). Pin
names in `inputs` / `outputs` are the plain `Name` strings the actions
push. -/

structure Argument where
  name : String
  value : String
  deriving DecidableEq, Repr

structure ChipCall where
  name : String
  arguments : List Argument
  deriving DecidableEq, Repr

structure Chip where
  name : String
  inputs : List String
  outputs : List String
  parts : List ChipCall
  deriving DecidableEq, Repr

/-- The module-level accumulators `inputs`, `outputs`, `parts` of the
parser module, initialized to empty arrays at load time and never reset
by `parse`. -/
structure Env where
  inputs : List String
  outputs : List String
  parts : List ChipCall
  deriving DecidableEq, Repr

/-- The accumulators as they stand when the module has just been loaded
(a fresh parser state). -/
def initialEnv : Env := ⟨[], [], []⟩

/-- A semantic value on the parsing stack: a token's text, a `Name`, a
list from one of the list-building productions, an AST node, or the
absent value of an action-less production (`undefined` in JS). -/
inductive SemVal
  | undefVal
  | str (s : String)
  | strs (l : List String)
  | arg (a : Argument)
  | args (l : List Argument)
  | call (c : ChipCall)
  | calls (l : List ChipCall)
  | chip (c : Chip)
  deriving DecidableEq, Repr

/-- Projections used by the semantic actions: on every run reaching an
action the stack discipline of the LR table guarantees the expected
variant, so the default values are never produced. -/
def SemVal.getStr : SemVal → String
  | .str s => s
  | _ => ""

def SemVal.getStrs : SemVal → List String
  | .strs l => l
  | _ => []

def SemVal.getArg : SemVal → Argument
  | .arg a => a
  | _ => ⟨"", ""⟩

def SemVal.getArgs : SemVal → List Argument
  | .args l => l
  | _ => []

def SemVal.getCall : SemVal → ChipCall
  | .call c => c
  | _ => ⟨"", []⟩

def SemVal.getCalls : SemVal → List ChipCall
  | .calls l => l
  | _ => []

/-! ## LR engine -/

/-- A terminal entry of the generated parsing `table`. -/
inductive Action
  | shift (s : Nat)
  | reduce (p : Nat)
  | accept
  deriving DecidableEq, Repr

/-- The terminal part of the generated `table`: `tableAction state column`
is the `"s N"` / `"r N"` / `"acc"` entry, transcribed row by row. -/
def tableAction : Nat → Nat → Option Action
  | 0, 12 => some (.shift 1)
  | 1, 12 => some (.shift 32)
  | 1, 13 => some (.shift 33)
  | 1, 14 => some (.shift 34)
  | 1, 15 => some (.shift 35)
  | 1, 16 => some (.shift 31)
  | 2, 17 => some (.shift 3)
  | 3, 13 => some (.shift 6)
  | 3, 14 => some (.shift 7)
  | 3, 15 => some (.shift 8)
  | 4, 18 => some (.shift 39)
  | 5, 13 => some (.shift 6)
  | 5, 14 => some (.shift 7)
  | 5, 15 => some (.shift 8)
  | 6, 12 => some (.shift 32)
  | 6, 13 => some (.shift 33)
  | 6, 14 => some (.shift 34)
  | 6, 15 => some (.shift 35)
  | 6, 16 => some (.shift 31)
  | 7, 12 => some (.shift 32)
  | 7, 13 => some (.shift 33)
  | 7, 14 => some (.shift 34)
  | 7, 15 => some (.shift 35)
  | 7, 16 => some (.shift 31)
  | 8, 20 => some (.shift 15)
  | 9, 13 => some (.shift 6)
  | 9, 14 => some (.shift 7)
  | 9, 15 => some (.shift 8)
  | 10, 19 => some (.shift 41)
  | 10, 21 => some (.shift 12)
  | 11, 19 => some (.reduce 9)
  | 11, 21 => some (.reduce 9)
  | 12, 12 => some (.shift 32)
  | 12, 13 => some (.shift 33)
  | 12, 14 => some (.shift 34)
  | 12, 15 => some (.shift 35)
  | 12, 16 => some (.shift 31)
  | 13, 19 => some (.reduce 10)
  | 13, 21 => some (.reduce 10)
  | 14, 19 => some (.shift 42)
  | 14, 21 => some (.shift 12)
  | 15, 16 => some (.shift 18)
  | 16, 13 => some (.reduce 8)
  | 16, 14 => some (.reduce 8)
  | 16, 15 => some (.reduce 8)
  | 16, 16 => some (.shift 18)
  | 16, 18 => some (.reduce 8)
  | 17, 13 => some (.reduce 16)
  | 17, 14 => some (.reduce 16)
  | 17, 15 => some (.reduce 16)
  | 17, 16 => some (.reduce 16)
  | 17, 18 => some (.reduce 16)
  | 18, 22 => some (.shift 20)
  | 19, 13 => some (.reduce 17)
  | 19, 14 => some (.reduce 17)
  | 19, 15 => some (.reduce 17)
  | 19, 16 => some (.reduce 17)
  | 19, 18 => some (.reduce 17)
  | 20, 16 => some (.shift 23)
  | 21, 21 => some (.shift 25)
  | 21, 23 => some (.shift 24)
  | 22, 21 => some (.reduce 19)
  | 22, 23 => some (.reduce 19)
  | 23, 24 => some (.shift 28)
  | 24, 19 => some (.shift 26)
  | 25, 16 => some (.shift 23)
  | 26, 13 => some (.reduce 18)
  | 26, 14 => some (.reduce 18)
  | 26, 15 => some (.reduce 18)
  | 26, 16 => some (.reduce 18)
  | 26, 18 => some (.reduce 18)
  | 27, 21 => some (.reduce 20)
  | 27, 23 => some (.reduce 20)
  | 28, 16 => some (.shift 29)
  | 29, 21 => some (.reduce 21)
  | 29, 23 => some (.reduce 21)
  | 30, 25 => some .accept
  | 31, 17 => some (.reduce 11)
  | 31, 19 => some (.reduce 11)
  | 31, 21 => some (.reduce 11)
  | 32, 17 => some (.reduce 12)
  | 32, 19 => some (.reduce 12)
  | 32, 21 => some (.reduce 12)
  | 33, 17 => some (.reduce 13)
  | 33, 19 => some (.reduce 13)
  | 33, 21 => some (.reduce 13)
  | 34, 17 => some (.reduce 14)
  | 34, 19 => some (.reduce 14)
  | 34, 21 => some (.reduce 14)
  | 35, 17 => some (.reduce 15)
  | 35, 19 => some (.reduce 15)
  | 35, 21 => some (.reduce 15)
  | 36, 13 => some (.reduce 3)
  | 36, 14 => some (.reduce 3)
  | 36, 15 => some (.reduce 3)
  | 36, 18 => some (.reduce 3)
  | 37, 13 => some (.reduce 4)
  | 37, 14 => some (.reduce 4)
  | 37, 15 => some (.reduce 4)
  | 37, 18 => some (.reduce 4)
  | 38, 13 => some (.reduce 5)
  | 38, 14 => some (.reduce 5)
  | 38, 15 => some (.reduce 5)
  | 38, 18 => some (.reduce 5)
  | 39, 25 => some (.reduce 1)
  | 40, 18 => some (.reduce 2)
  | 41, 13 => some (.reduce 6)
  | 41, 14 => some (.reduce 6)
  | 41, 15 => some (.reduce 6)
  | 41, 18 => some (.reduce 6)
  | 42, 13 => some (.reduce 7)
  | 42, 14 => some (.reduce 7)
  | 42, 15 => some (.reduce 7)
  | 42, 18 => some (.reduce 7)
  | _, _ => none

/-- The nonterminal (goto) part of the generated `table`. -/
def tableGoto : Nat → Nat → Option Nat
  | 0, 0 => some 30
  | 1, 7 => some 2
  | 3, 1 => some 4
  | 3, 2 => some 5
  | 3, 3 => some 36
  | 3, 4 => some 37
  | 3, 5 => some 38
  | 5, 2 => some 9
  | 5, 3 => some 36
  | 5, 4 => some 37
  | 5, 5 => some 38
  | 6, 6 => some 10
  | 6, 7 => some 11
  | 7, 6 => some 14
  | 7, 7 => some 11
  | 9, 2 => some 40
  | 9, 3 => some 36
  | 9, 4 => some 37
  | 9, 5 => some 38
  | 12, 7 => some 13
  | 15, 8 => some 16
  | 15, 9 => some 17
  | 16, 9 => some 19
  | 20, 10 => some 21
  | 20, 11 => some 22
  | 25, 11 => some 27
  | _, _ => none

/-- Left-hand-side nonterminal and right-hand-side length of each entry
of the `productions` list. Production 0 is the augmented start
production `[-1, 1]`; the table never reduces by it, and its `-1` symbol
is represented by the nonterminal index 12, unused by `tableGoto`. -/
def prodInfo : Nat → Nat × Nat
  | 0 => (12, 1)
  | 1 => (0, 5)
  | 2 => (1, 3)
  | 3 => (2, 1)
  | 4 => (2, 1)
  | 5 => (2, 1)
  | 6 => (3, 3)
  | 7 => (4, 3)
  | 8 => (5, 3)
  | 9 => (6, 1)
  | 10 => (6, 3)
  | 11 => (7, 1)
  | 12 => (7, 1)
  | 13 => (7, 1)
  | 14 => (7, 1)
  | 15 => (7, 1)
  | 16 => (8, 1)
  | 17 => (8, 2)
  | 18 => (9, 5)
  | 19 => (10, 1)
  | 20 => (10, 3)
  | 21 => (11, 3)
  | _ => (12, 0)

/-- Whether a production has a semantic action (`typeof production[2] ===
'function'`): all of them except production 2 (`Sections`). -/
def hasAction (p : Nat) : Bool := p ≠ 2

/-- `yyloc` of the source, with `captureLocations` at its default
`true`. -/
def yyloc : Option Loc → Option Loc → Option Loc
  | none, e => e
  | some s, none => some s
  | some s, some e =>
    some ⟨s.startOffset, e.endOffset, s.startLine, e.endLine,
      s.startColumn, e.endColumn⟩

/-- The semantic actions of the `productions` list. The JS mutable
result register `__` becomes the `lastVal` argument (its value is
returned unchanged by the section actions 6, 7, 8, which only push onto
the module-level accumulators); `__loc` becomes the returned location;
the accumulators become the `Env` component. -/
def runAction (p : Nat) (vals : List SemVal) (locs : List (Option Loc))
    (env : Env) (lastVal : SemVal) : SemVal × Option Loc × Env :=
  match p, vals, locs with
  | 0, [v1], [l1] => (v1, yyloc l1 l1, env)
  | 1, [_, v2, _, _, _], [l1, _, _, _, l5] =>
    (.chip ⟨v2.getStr, env.inputs, env.outputs, env.parts⟩,
     yyloc l1 l5, env)
  | 3, [v1], [l1] => (v1, yyloc l1 l1, env)
  | 4, [v1], [l1] => (v1, yyloc l1 l1, env)
  | 5, [v1], [l1] => (v1, yyloc l1 l1, env)
  | 6, [_, v2, _], [l1, _, l3] =>
    (lastVal, yyloc l1 l3, { env with inputs := env.inputs ++ v2.getStrs })
  | 7, [_, v2, _], [l1, _, l3] =>
    (lastVal, yyloc l1 l3, { env with outputs := env.outputs ++ v2.getStrs })
  | 8, [_, _, v3], [l1, _, l3] =>
    (lastVal, yyloc l1 l3, { env with parts := env.parts ++ v3.getCalls })
  | 9, [v1], [l1] => (.strs [v1.getStr], yyloc l1 l1, env)
  | 10, [v1, _, v3], [l1, _, l3] =>
    (.strs (v1.getStrs ++ [v3.getStr]), yyloc l1 l3, env)
  | 11, [v1], [l1] => (v1, yyloc l1 l1, env)
  | 12, [v1], [l1] => (v1, yyloc l1 l1, env)
  | 13, [v1], [l1] => (v1, yyloc l1 l1, env)
  | 14, [v1], [l1] => (v1, yyloc l1 l1, env)
  | 15, [v1], [l1] => (v1, yyloc l1 l1, env)
  | 16, [v1], [l1] => (.calls [v1.getCall], yyloc l1 l1, env)
  | 17, [v1, v2], [l1, l2] =>
    (.calls (v1.getCalls ++ [v2.getCall]), yyloc l1 l2, env)
  | 18, [v1, _, v3, _, _], [l1, _, _, _, l5] =>
    (.call ⟨v1.getStr, v3.getArgs⟩, yyloc l1 l5, env)
  | 19, [v1], [l1] => (.args [v1.getArg], yyloc l1 l1, env)
  | 20, [v1, _, v3], [l1, _, l3] =>
    (.args (v1.getArgs ++ [v3.getArg]), yyloc l1 l3, env)
  | 21, [v1, _, v3], [l1, _, l3] =>
    (.arg ⟨v1.getStr, v3.getStr⟩, yyloc l1 l3, env)
  | _, _, _ => (lastVal, none, env)

/-- A value entry of the parsing stack (`{symbol, semanticValue, loc}`).
The stack itself is the list of `(entry, state)` pairs pushed above the
initial state `0`, topmost first. -/
structure PEntry where
  symbol : Nat
  value : SemVal
  loc : Option Loc
  deriving DecidableEq, Repr

/-- `unexpectedToken(token)` of the source. -/
def unexpectedTokenErr (input : List Char) (t : Token) : PError :=
  if t.type = .tEOF then .unexpectedEndOfInput
  else throwUnexpectedToken input t.value t.loc.startLine t.loc.startColumn

/-- The shift / reduce / accept loop of `yyparse.parse`, fueled (each
iteration of the source's `do`-`while` loop is one recursive call; the
loop always terminates, and the fuel passed by `parse` is never
exhausted on the runs of the theorems below).

The source's loop condition `tokenizer.hasMoreTokens() || stack.length >
1` is not re-checked here: after a shift or a reduce the stack always
holds at least one pushed pair, so `stack.length > 1` holds in the
source and the condition is true. -/
def parseLoop (input : List Char) :
    Nat → List (PEntry × Nat) → Token → LexState → Env → SemVal →
    Except PError (SemVal × Env)
  | 0, _, _, _, _, _ => .error .fuelOut
  | fuel + 1, stack, token, lx, env, lastVal =>
    let state := match stack with | [] => 0 | (_, s) :: _ => s
    match tableAction state token.type.col with
    | none => .error (unexpectedTokenErr input token)
    | some (.shift ns) => do
      let entry : PEntry := ⟨token.type.col, .str token.value, some token.loc⟩
      let (token2, lx2) ← getNextToken (input.length + 2) lx
      parseLoop input fuel ((entry, ns) :: stack) token2 lx2 env lastVal
    | some (.reduce p) =>
      let info := prodInfo p
      let popped := stack.take info.2
      let rest := stack.drop info.2
      let nextState := match rest with | [] => 0 | (_, s) :: _ => s
      match tableGoto nextState info.1 with
      | none => .error .engineCrash
      | some g =>
        if hasAction p then
          let vals := (popped.map (fun e => e.1.value)).reverse
          let locs := (popped.map (fun e => e.1.loc)).reverse
          let (v, loc, env2) := runAction p vals locs env lastVal
          parseLoop input fuel ((⟨info.1, v, loc⟩, g) :: rest) token lx env2 v
        else
          parseLoop input fuel ((⟨info.1, .undefVal, none⟩, g) :: rest)
            token lx env lastVal
    | some .accept =>
      match stack with
      | [] => .error .engineCrash
      | (top, _) :: rest =>
        -- `stack.length !== 1 || stack[0] !== 0 || tokenizer.hasMoreTokens()`
        if rest.isEmpty && !(decide (lx.cursor ≤ input.length)) then
          .ok (top.value, env)
        else
          .error (unexpectedTokenErr input token)

/-- `yyparse.parse(string)` with the default options: tokenizes and runs
the LR loop. The module-level accumulators come in as `env` and go out
(updated by the section actions) with the result; the returned semantic
value of a successful run is always a `.chip`. -/
def parse (text : String) (env : Env) : Except PError (SemVal × Env) := do
  let input := text.data
  let (token0, lx0) ← getNextToken (input.length + 2) (initString input)
  parseLoop input (10 * input.length + 200) [] token0 lx0 env .undefVal

/-- Whether a parse from fresh parser state succeeds. -/
def parseAccepts (s : String) : Bool :=
  match parse s initialEnv with
  | .ok _ => true
  | .error _ => false

/-- Start column of the first token of an input, as the tokenizer
reports it. -/
def firstTokenStartColumn (s : String) : Option Nat :=
  match getNextToken (s.data.length + 2) (initString s.data) with
  | .ok (t, _) => some t.loc.startColumn
  | .error _ => none

/-- Token types of the whole token stream of an input. -/
def tokenTypes (s : String) : Option (List TokType) :=
  match tokenizeAll s with
  | .ok l => some (l.map (fun t => t.type))
  | .error _ => none

/-- Matched texts of the whole token stream of an input. -/
def tokenValues (s : String) : Option (List String) :=
  match tokenizeAll s with
  | .ok l => some (l.map (fun t => t.value))
  | .error _ => none

/-! ## Concrete inputs

The HDL texts the claims are settled on. `muxText` is the exact content
of the Mux chip file at the top of the repository. -/

def muxText : String :=
  "// This file is part of www.nand2tetris.org\n// and the book \"The Elements of Computing Systems\"\n// by Nisan and Schocken, MIT Press.\n\n/**\n * Multiplexor:\n * out = a if sel == 0\n *       b otherwise\n */\n\nCHIP Mux \x7b\n  IN a, b, sel;\n  OUT out;\n\n  PARTS:\n\n  Not(in=sel, out=nel);\n  And(a=a, b=nel, out=A);\n  And(a=b, b=sel, out=B);\n  Or(a=A, b=B, out=out);\n\x7d\n"

/-- The four part calls of the Mux chip, in source order. -/
def muxParts : List ChipCall :=
  [⟨"Not", [⟨"in", "sel"⟩, ⟨"out", "nel"⟩]⟩,
   ⟨"And", [⟨"a", "a"⟩, ⟨"b", "nel"⟩, ⟨"out", "A"⟩]⟩,
   ⟨"And", [⟨"a", "b"⟩, ⟨"b", "sel"⟩, ⟨"out", "B"⟩]⟩,
   ⟨"Or", [⟨"a", "A"⟩, ⟨"b", "B"⟩, ⟨"out", "out"⟩]⟩]

/-- The AST a fresh parse of `muxText` returns. -/
def muxChip : Chip := ⟨"Mux", ["a", "b", "sel"], ["out"], muxParts⟩

/-- The accumulator state after one parse of `muxText`. -/
def muxEnv : Env := ⟨["a", "b", "sel"], ["out"], muxParts⟩

/-- The AST a second parse of `muxText` returns when the accumulators
already hold the first parse's entries. -/
def muxChipTwice : Chip :=
  ⟨"Mux", ["a", "b", "sel", "a", "b", "sel"], ["out", "out"],
    muxParts ++ muxParts⟩

/-- The accumulator state after two parses of `muxText`. -/
def muxEnvTwice : Env :=
  ⟨["a", "b", "sel", "a", "b", "sel"], ["out", "out"], muxParts ++ muxParts⟩

/-- Chip bodies with zero through four well-formed sections. -/
def sec0Text : String := "CHIP Foo \x7b \x7d"

def sec1Text : String := "CHIP Foo \x7b IN a; \x7d"

def sec2Text : String := "CHIP Foo \x7b IN a; OUT b; \x7d"

def sec3Text : String := "CHIP Foo \x7b IN a; OUT b; PARTS: Not(in=a, out=b); \x7d"

def sec4Text : String :=
  "CHIP Foo \x7b IN a; OUT b; PARTS: Not(in=a, out=b); IN c; \x7d"

/-- Three sections of the same kind. -/
def sec3InText : String := "CHIP Foo \x7b IN a; IN b; IN c; \x7d"

/-- Argument values: a plain identifier, a bracketed index, a bracketed
range, and the literals `true` / `false`. -/
def argPlainText : String :=
  "CHIP Foo \x7b IN a; OUT o; PARTS: Not(in=a, out=o); \x7d"

def argIdxText : String :=
  "CHIP Foo \x7b IN a; OUT o; PARTS: Not(in=a[0], out=o); \x7d"

def argRangeText : String :=
  "CHIP Foo \x7b IN a; OUT o; PARTS: Not(in=a[0..3], out=o); \x7d"

def argBoolText : String :=
  "CHIP Foo \x7b IN a; OUT o; PARTS: Not(in=true, out=false); \x7d"

/-- An input that ends in the middle of a chip. -/
def prematureText : String := "CHIP Foo \x7b"

/-- Keywords in identifier positions: as chip name and pin name, as part
name, as argument name, as argument value; and `true` as a part name. -/
def kwNameText : String :=
  "CHIP IN \x7b IN CHIP; OUT b; PARTS: Not(in=a, out=b); \x7d"

def kwPartText : String :=
  "CHIP Foo \x7b IN a; OUT b; PARTS: IN(in=a, out=b); \x7d"

def kwArgNameText : String :=
  "CHIP Foo \x7b IN a; OUT b; PARTS: Not(IN=a, out=b); \x7d"

def kwArgValText : String :=
  "CHIP Foo \x7b IN a; OUT b; PARTS: Not(in=OUT, out=b); \x7d"

def boolPartText : String :=
  "CHIP Foo \x7b IN a; OUT b; PARTS: true(in=a, out=b); \x7d"

/-- A pin declaration with an explicit bracketed size. -/
def pinSizeText : String :=
  "CHIP Foo \x7b IN a[2]; OUT o; PARTS: Not(in=a, out=o); \x7d"

/-- The input of the parse-error-location scenario. -/
def c10Text : String := "CHIP Foo \x7b IN a IN b; \x7d"

/-! ## Theorems -/

/-- C1: parsing the repository's Mux HDL text on fresh parser state
succeeds and returns a Chip AST named "Mux" with inputs a, b, sel and
output out in source order, and exactly the four part calls Not(in=sel,
out=nel), And(a=a, b=nel, out=A), And(a=b, b=sel, out=B), Or(a=A, b=B,
out=out), each argument carrying the stated name and value. -/
theorem mux_parse_ast :
    parse muxText initialEnv = .ok (.chip muxChip, muxEnv) := rfl

/-- C2 counterexample: two successive `parse` calls on the same text do
not return structurally equal Chip values — the grammar action hooks
accumulate into module-level lists that are never reset, so the second
parse of `muxText` returns a Chip with every input, output and part
twice. -/
theorem mux_parse_twice_differs :
    parse muxText initialEnv = .ok (.chip muxChip, muxEnv) ∧
    parse muxText muxEnv = .ok (.chip muxChipTwice, muxEnvTwice) ∧
    muxChipTwice ≠ muxChip := ⟨rfl, rfl, by decide⟩

/-- C2 amended: the module-level `inputs` / `outputs` / `parts`
accumulators persist across `parse` calls, so the second parse of the
same text returns a Chip whose lists hold two copies of every entry of
the first parse's result. -/
theorem mux_parse_accumulates :
    parse muxText muxEnv = .ok (.chip muxChipTwice, muxEnvTwice) ∧
    muxChipTwice.inputs = muxChip.inputs ++ muxChip.inputs ∧
    muxChipTwice.outputs = muxChip.outputs ++ muxChip.outputs ∧
    muxChipTwice.parts = muxChip.parts ++ muxChip.parts :=
  ⟨rfl, rfl, rfl, rfl⟩

/-- C3 counterexample: a chip body with zero sections is rejected — the
closing brace of `CHIP Foo { }` is an unexpected token — although the
claim asserts every section count k ≥ 0 is accepted. -/
theorem zero_sections_rejected :
    parse sec0Text initialEnv =
      .error (.unexpectedToken "\x7d" 1 11 (some sec0Text)) := rfl

/-- C3 amended: the parser accepts a chip body with exactly three
sections (of any kinds, repetition allowed) and rejects bodies with
zero, one, two or four sections. -/
theorem sections_exactly_three :
    parseAccepts sec0Text = false ∧
    parseAccepts sec1Text = false ∧
    parseAccepts sec2Text = false ∧
    parseAccepts sec3Text = true ∧
    parseAccepts sec4Text = false ∧
    parseAccepts sec3InText = true :=
  ⟨rfl, rfl, rfl, rfl, rfl, rfl⟩

/-- C4 counterexample: a bracketed index in a part-argument position is
rejected — the lexer has no rule for `[`, so `Not(in=a[0], out=o)` fails
with an unexpected-token error at the bracket — although the claim
asserts every PinRef form of the published grammar is accepted. -/
theorem indexed_pinref_rejected :
    parse argIdxText initialEnv =
      .error (.unexpectedToken "[" 1 39 (some argIdxText)) := rfl

/-- C4 amended: in a part-argument position only a plain identifier is
accepted; `true` and `false` are lexed as ordinary identifiers and yield
the plain strings "true" / "false" as argument values; bracketed index
and range forms are rejected at the `[`. -/
theorem argument_value_forms :
    parse argPlainText initialEnv =
      .ok (.chip ⟨"Foo", ["a"], ["o"], [⟨"Not", [⟨"in", "a"⟩, ⟨"out", "o"⟩]⟩]⟩,
        ⟨["a"], ["o"], [⟨"Not", [⟨"in", "a"⟩, ⟨"out", "o"⟩]⟩]⟩) ∧
    parse argBoolText initialEnv =
      .ok (.chip ⟨"Foo", ["a"], ["o"],
          [⟨"Not", [⟨"in", "true"⟩, ⟨"out", "false"⟩]⟩]⟩,
        ⟨["a"], ["o"], [⟨"Not", [⟨"in", "true"⟩, ⟨"out", "false"⟩]⟩]⟩) ∧
    parse argIdxText initialEnv =
      .error (.unexpectedToken "[" 1 39 (some argIdxText)) ∧
    parse argRangeText initialEnv =
      .error (.unexpectedToken "[" 1 39 (some argRangeText)) :=
  ⟨rfl, rfl, rfl, rfl⟩

/-- C5 counterexample: an input that ends prematurely does not fail with
a structured error carrying line, column, sourceLine and caret — it
fails with a bare `Unexpected end of input.` message holding no location
data at all. -/
theorem premature_end_error_bare :
    parse prematureText initialEnv = .error .unexpectedEndOfInput ∧
    errMessage .unexpectedEndOfInput = some "Unexpected end of input." :=
  ⟨rfl, rfl⟩

/-- C5 amended: a syntax violation at a concrete token or character
fails with an error carrying the offending symbol, 1-based line, 0-based
column and the offending source line, rendered in the thrown message
with the source line and a caret padded to the column; a premature end
of input fails with only the message `Unexpected end of input.`. -/
theorem error_surface_shapes :
    parse argIdxText initialEnv =
      .error (.unexpectedToken "[" 1 39 (some argIdxText)) ∧
    errMessage (.unexpectedToken "[" 1 39 (some argIdxText)) =
      some ("\n\n" ++ argIdxText ++ "\n" ++
        String.mk (List.replicate 39 ' ') ++
        "^\nUnexpected token: \"[\" at 1:39.") ∧
    parse prematureText initialEnv = .error .unexpectedEndOfInput ∧
    errMessage .unexpectedEndOfInput = some "Unexpected end of input." :=
  ⟨rfl, rfl, rfl, rfl⟩

/-- C6 counterexample: columns are not 1-based — the first character of
a line is reported at column 0, not 1: the token starting at the first
character of `CHIP` has start column 0. -/
theorem first_column_zero :
    firstTokenStartColumn "CHIP" = some 0 ∧
    firstTokenStartColumn "CHIP" ≠ some 1 := ⟨rfl, by decide⟩

/-- C6 amended: token locations consist of character offsets, 1-based
line numbers and 0-based column numbers: on the two-line input
`CHIP\nIN x` the tokens carry lines 1, 2, 2 and start columns 0, 0, 3,
with the first character of each line at column 0. -/
theorem locations_zero_based :
    tokenizeAll "CHIP\nIN x" =
      .ok [⟨.tCHIP, "CHIP", ⟨0, 4, 1, 1, 0, 4⟩⟩,
           ⟨.tIN, "IN", ⟨5, 7, 2, 2, 0, 2⟩⟩,
           ⟨.tID, "x", ⟨8, 9, 2, 2, 3, 4⟩⟩,
           EOF_TOKEN] := rfl

/-- C7 counterexample: keywords are not reserved in every identifier
position — the chip text naming the chip `IN` and its declared pin
`CHIP` parses successfully, although the claim asserts every chip text
using a keyword in an identifier position fails. -/
theorem keyword_chip_name_accepted :
    parse kwNameText initialEnv =
      .ok (.chip ⟨"IN", ["CHIP"], ["b"],
          [⟨"Not", [⟨"in", "a"⟩, ⟨"out", "b"⟩]⟩]⟩,
        ⟨["CHIP"], ["b"], [⟨"Not", [⟨"in", "a"⟩, ⟨"out", "b"⟩]⟩]⟩) := rfl

/-- C7 amended: CHIP, IN, OUT and PARTS are accepted as chip names and
declared pin names (the Name nonterminal derives them), and rejected as
part names, argument names and argument values; `true` and `false` are
not keywords at all and are accepted wherever an identifier is. -/
theorem keyword_identifier_positions :
    parseAccepts kwNameText = true ∧
    parseAccepts kwPartText = false ∧
    parseAccepts kwArgNameText = false ∧
    parseAccepts kwArgValText = false ∧
    parseAccepts boolPartText = true :=
  ⟨rfl, rfl, rfl, rfl, rfl⟩

/-- C8 counterexample: `OUTx` is not lexed as a single ID token — the
keyword rule `/^OUT/` is tried before `/^\w+/` and first match wins, so
`OUTx` lexes as OUT followed by the identifier `x`; and `9lives`, which
starts with a digit, is lexed as a single ID. -/
theorem keyword_prefix_splits :
    tokenTypes "OUTx" = some [.tOUT, .tID, .tEOF] ∧
    tokenTypes "OUTx" ≠ some [.tID, .tEOF] ∧
    tokenTypes "9lives" = some [.tID, .tEOF] :=
  ⟨rfl, by decide, rfl⟩

/-- C8 amended: identifiers are lexed by the rule `\w+` (`[A-Za-z0-9_]+`)
tried after the keyword rules with first match winning: a word beginning
with a keyword is split at the keyword (OUTx lexes as OUT, x; INx as IN,
x), while any other `\w+` string — a digit-leading one included — lexes
as a single ID. -/
theorem lexer_word_rule :
    tokenValues "OUTx" = some ["OUT", "x", ""] ∧
    tokenTypes "OUTx" = some [.tOUT, .tID, .tEOF] ∧
    tokenTypes "INx" = some [.tIN, .tID, .tEOF] ∧
    tokenTypes "9lives" = some [.tID, .tEOF] ∧
    tokenValues "9lives" = some ["9lives", ""] ∧
    tokenTypes "x_1" = some [.tID, .tEOF] :=
  ⟨rfl, rfl, rfl, rfl, rfl, rfl⟩

/-- C9 counterexample: a pin declaration cannot carry an explicit
bracketed size — `IN a[2];` fails with an unexpected-token error at the
`[`, which no lex rule matches. -/
theorem pin_size_rejected :
    parse pinSizeText initialEnv =
      .error (.unexpectedToken "[" 1 15 (some pinSizeText)) := rfl

/-- C9 amended: pin declarations are bare names: the bracketed size
form is rejected at the `[`, and a parsed declaration contributes a
plain name string (carrying no size) to the chip's pin lists. -/
theorem pin_decl_bare_names :
    parse pinSizeText initialEnv =
      .error (.unexpectedToken "[" 1 15 (some pinSizeText)) ∧
    parse argPlainText initialEnv =
      .ok (.chip ⟨"Foo", ["a"], ["o"], [⟨"Not", [⟨"in", "a"⟩, ⟨"out", "o"⟩]⟩]⟩,
        ⟨["a"], ["o"], [⟨"Not", [⟨"in", "a"⟩, ⟨"out", "o"⟩]⟩]⟩) :=
  ⟨rfl, rfl⟩

/-- C10: parsing `CHIP Foo { IN a IN b; }` fails at the second IN: the
error carries line 1 and column 16 — the position of the second IN
keyword — and its source line echoes the input line, with the rendered
message placing the caret under that keyword. -/
theorem second_in_error_location :
    parse c10Text initialEnv =
      .error (.unexpectedToken "IN" 1 16 (some c10Text)) ∧
    (c10Text.data.drop 16).take 2 = ['I', 'N'] ∧
    (c10Text.data.drop 11).take 2 = ['I', 'N'] ∧
    errMessage (.unexpectedToken "IN" 1 16 (some c10Text)) =
      some ("\n\n" ++ c10Text ++ "\n" ++
        String.mk (List.replicate 16 ' ') ++
        "^\nUnexpected token: \"IN\" at 1:16.") :=
  ⟨rfl, rfl, rfl, rfl⟩

end HdlJs
